import Mathlib

/-!
Verification development for a terminal dashboard managing remote build
runners and their groups.  The definitions below are shallow embeddings of
the Rust sources: the API data model (`src/client/api.rs`), the converted
UI model (`src/runners.rs`), the TTL cache (`src/utils/cache.rs`), the
backend worker loop (`src/backend.rs`), the generic filterable/selectable
list (`src/ui.rs`), and the navigation handlers (`src/runners_tab.rs`,
`src/tabs/groups_tab.rs`, `src/main.rs`).  Time, network responses and the
async scheduler are passed explicitly: network calls become entries of a
`NetCall` trace, the oracle `Env` supplies the remote responses, and the
completion order of concurrently dispatched fetches is an explicit list.
-/

namespace RunnersRs

/-! ## API data model (`src/client/api.rs`) -/

/-- Rust `APILabel` from `client/api.rs`: a label as returned by the remote API. -/
structure APILabel where
  id : Nat
  name : String
  label_type : String
deriving DecidableEq, Repr

/-- Rust `ApiRunner` from `client/api.rs`. -/
structure ApiRunner where
  id : Nat
  name : String
  os : String
  status : String
  busy : Bool
  ephemeral : Option Bool
  labels : List APILabel
  group_id : Nat
deriving DecidableEq, Repr

/-- Rust `RunnerGroupVisibility` from `client/api.rs`. -/
inductive RunnerGroupVisibility where
  | Selected
  | All
deriving DecidableEq, Repr

/-- Rust `ApiRunnerGroup` from `client/api.rs`.  Only the fields the embedded
code ever reads (`id`, `name`, `visibility`) are carried; the remaining
JSON fields (`default`, urls, workflow restrictions, …) are never read by
any code under verification. -/
structure ApiRunnerGroup where
  id : Nat
  name : String
  visibility : RunnerGroupVisibility
deriving DecidableEq, Repr

/-- Rust `ApiRunnerGroupCreate` from `client/api.rs`. -/
structure ApiRunnerGroupCreate where
  name : String
  visibility : RunnerGroupVisibility
  selected_repository_ids : List Nat
  runners : List Nat
deriving DecidableEq, Repr

/-- Rust `ApiRepository` from `client/api.rs`. -/
structure ApiRepository where
  id : Nat
  name : String
deriving DecidableEq, Repr

/-! ## UI data model (`src/runners.rs`) -/

/-- Rust `RunnerStatus` from `runners.rs`. -/
inductive RunnerStatus where
  | Online
  | Offline
  | Busy
deriving DecidableEq, Repr

/-- Rust `Runner` from `runners.rs`. -/
structure Runner where
  id : Nat
  status : RunnerStatus
  name : String
  labels : List String
  group : Option String
deriving DecidableEq, Repr

/-- Rust `impl From<ApiRunner> for Runner` (`runners.rs` lines 29-44): status is
`Busy` when the busy flag is set and `Online` otherwise; labels keep only
those whose type is `"custom"`. -/
def Runner.fromApi (r : ApiRunner) : Runner :=
  { id := r.id
    status := if r.busy then RunnerStatus.Busy else RunnerStatus.Online
    name := r.name
    labels := (r.labels.filter (fun l => l.label_type == "custom")).map (fun l => l.name)
    group := none }

/-- Rust `RunnerGroup` from `runners.rs`. -/
structure RunnerGroup where
  id : Nat
  name : String
  visibility : RunnerGroupVisibility
deriving DecidableEq, Repr

/-- Rust `impl From<ApiRunnerGroup> for RunnerGroup` (`runners.rs`). -/
def RunnerGroup.fromApi (g : ApiRunnerGroup) : RunnerGroup :=
  { id := g.id, name := g.name, visibility := g.visibility }

/-- Rust `impl Display for Runner` (`runners.rs`): `"{name} - {id} - {labels.join("|")}"`,
as the character list the filterable list matches against. -/
def Runner.display (r : Runner) : List Char :=
  (r.name ++ " - " ++ toString r.id ++ " - " ++ String.intercalate ("|") r.labels).data

/-- Rust `impl Display for RunnerGroup` (`runners.rs`): just the group name. -/
def RunnerGroup.display (g : RunnerGroup) : List Char :=
  g.name.data

/-! ## Cache (`src/utils/cache.rs`)

The wall clock (`SystemTime::now`) is passed explicitly as a `Nat` of
elapsed seconds, so `CacheEntry::new` and `Cache::get` take the current
time as an argument. -/

/-- Rust `CacheEntry` from `utils/cache.rs`. -/
structure CacheEntry (T : Type) where
  timestamp : Nat
  ttl : Nat
  item : T
deriving DecidableEq, Repr

/-- Rust `CacheEntry::new` (`utils/cache.rs`): stamps the entry with the current
time. -/
def CacheEntry.new (item : T) (ttl : Nat) (now : Nat) : CacheEntry T :=
  { item := item, ttl := ttl, timestamp := now }

/-- Rust `CacheEntry::is_expired` (`utils/cache.rs` lines 19-22): despite its
name it returns `true` exactly when the entry is still fresh —
`self.timestamp <= now && now < self.timestamp + self.ttl`. -/
def CacheEntry.is_expired (e : CacheEntry T) (now : Nat) : Bool :=
  decide (e.timestamp ≤ now) && decide (now < e.timestamp + e.ttl)

/-- Rust `Cache` from `utils/cache.rs`.  The `HashMap<String, CacheEntry<T>>` is
modelled as an association list whose keys are unique (inserting replaces
any previous binding, exactly like `HashMap::insert`). -/
structure Cache (T : Type) where
  entries : List (String × CacheEntry T)
deriving DecidableEq, Repr

/-- Rust `Cache::new`. -/
def Cache.new : Cache T := { entries := [] }

/-- Rust `Cache::insert_with_ttl` (`utils/cache.rs` lines 40-43): unconditionally
overwrites the binding for `key`, stamping the current time and defaulting
the ttl to 300 when unspecified. -/
def Cache.insert_with_ttl (c : Cache T) (now : Nat) (key : String) (value : T)
    (ttl : Option Nat) : Cache T :=
  { entries := (key, CacheEntry.new value (ttl.getD 300) now)
      :: c.entries.filter (fun p => !(p.1 == key)) }

/-- Rust `Cache::insert` (`utils/cache.rs` lines 36-38): insert with the default ttl. -/
def Cache.insert (c : Cache T) (now : Nat) (key : String) (value : T) : Cache T :=
  c.insert_with_ttl now key value none

/-- Rust `Cache::get` (`utils/cache.rs` lines 45-48): look the key up and return
the value only when the entry passes the freshness predicate; the entry is
never removed (`get` takes `&self` in the source — it is a pure read, so
there is no proactive eviction). -/
def Cache.get (c : Cache T) (now : Nat) (key : String) : Option T :=
  (((c.entries.find? (fun p => p.1 == key)).map Prod.snd).filter
      (fun e => e.is_expired now)).map (fun e => e.item)

/-! ## Worker (`src/backend.rs`)

The worker is a sequential interpreter of `BackendMessage`s.  Each network
round-trip is recorded as a `NetCall` (including the skip-cache flag the
client method receives), the remote responses come from an oracle `Env`,
and the events sent to the UI are collected in dispatch order.  A handler
that panics (a failed `unwrap`/`expect`) is modelled as `none`. -/

/-- Rust `BackendMessage` from `backend.rs` lines 9-18 (UI → worker commands). -/
inductive BackendMessage where
  | FetchRunners
  | FetchGroups
  | AddLabel (runner_id : Nat) (label : String)
  | DeleteLabel (runner_id : Nat) (label : String)
  | ChangeGroup (runner_id : Nat) (group_name : String)
  | AddRepoToGroup (repo_name : String) (group_id : Nat)
  | GetGroupRepos (group_id : Nat)
  | CreateRunnerGroup (gspec : ApiRunnerGroupCreate)
deriving DecidableEq, Repr

/-- Rust `ApiMessage` from `backend.rs` lines 20-25 (worker → UI events). -/
inductive ApiMessage where
  | Ok
  | RunnerList (runners : List Runner)
  | RunnerGroupList (groups : List RunnerGroup)
  | GroupRepos (repos : List ApiRepository)
deriving DecidableEq, Repr

/-- One remote round-trip issued through `Client` (`client/api.rs`), with
the skip-cache flag where the endpoint takes one. -/
inductive NetCall where
  | get_all_groups (skip_cache : Bool)
  | get_group_runners (group_id : Nat) (skip_cache : Bool)
  | add_label_call (runner_id : Nat) (labels : List String)
  | remove_label_call (runner_id : Nat) (label : String)
  | add_runner_to_group (runner_id : Nat) (group_id : Nat)
  | get_repo (org : String) (repo : String)
  | add_repo_access (group_id : Nat) (repo_id : Nat)
  | create_group_call (gspec : ApiRunnerGroupCreate)
  | get_group_repos (group_id : Nat)
deriving DecidableEq, Repr

/-- Holds for the calls that mutate remote state (POST/PUT/DELETE). -/
def NetCall.isMutating : NetCall → Bool
  | .add_label_call _ _ => true
  | .remove_label_call _ _ => true
  | .add_runner_to_group _ _ => true
  | .add_repo_access _ _ => true
  | .create_group_call _ => true
  | _ => false

/-- Holds for a read that explicitly bypasses the cache (skip-cache flag set). -/
def NetCall.isCacheBypassingRead : NetCall → Bool
  | .get_all_groups b => b
  | .get_group_runners _ b => b
  | _ => false

/-- Oracle for the remote API: what each successful round-trip returns.
`repo_lookup` returns `none` when `get_repo` fails (the worker `expect`s
on it); the other reads are taken as succeeding, since any failed network
call aborts the worker and produces no trace at all. -/
structure Env where
  groups : List ApiRunnerGroup
  group_runners : Nat → List ApiRunner
  repo_lookup : String → Option ApiRepository
  group_repos : Nat → List ApiRepository

/-- The per-group fetch closure of `Worker::get_runners` (`backend.rs`
lines 63-75): fetch the group's runners, convert each and tag it with the
group's name. -/
def tagRunners (gname : String) (rs : List ApiRunner) : List Runner :=
  rs.map (fun r => { Runner.fromApi r with group := some gname })

/-- The futures `Worker::get_runners` dispatches, one per group, in
group-list order. -/
def fanout (env : Env) : List (List Runner) :=
  env.groups.map (fun g => tagRunners g.name (env.group_runners g.id))

/-- The dispatched futures keyed by their dispatch index: future `i`
eventually completes with `(i, result_i)`. -/
def dispatched (env : Env) : List (Nat × List Runner) :=
  (fanout env).enum

/-- Rust `futures::future::join_all`: the results are assembled by dispatch
index, whatever order the futures complete in.  `completions` is the list
of `(dispatch index, result)` pairs in completion order. -/
def joinAll (n : Nat) (completions : List (Nat × List Runner)) : List (List Runner) :=
  (List.range n).map (fun i =>
    ((completions.find? (fun p => p.1 == i)).map Prod.snd).getD [])

/-- The `RunnerList` payload assembled from a given completion order:
`join_all` then `flatten` (`backend.rs` lines 76-78). -/
def mergedRunners (env : Env) (completions : List (Nat × List Runner)) : List Runner :=
  (joinAll env.groups.length completions).flatten

/-- The network calls `Worker::get_runners` issues, in dispatch order: the
group-list fetch, then one per-group runner fetch per group, every one
carrying the same skip-cache flag (`backend.rs` lines 53-81). -/
def get_runners_calls (env : Env) (skip : Bool) : List NetCall :=
  NetCall.get_all_groups skip :: env.groups.map (fun g => NetCall.get_group_runners g.id skip)

/-- The groups `Worker::get_runners` converts and emits before the fan-out. -/
def groupsList (env : Env) : List RunnerGroup :=
  env.groups.map RunnerGroup.fromApi

/-- The runner list `Worker::get_runners` returns (dispatch-order merge). -/
def get_runners_result (env : Env) : List Runner :=
  (fanout env).flatten

/-- Calls made by `Worker::refresh_runners` (`backend.rs` lines 83-87):
`get_runners(Some(true))`, i.e. the whole fetch sequence with the cache
bypassed. -/
def refresh_calls (env : Env) : List NetCall :=
  get_runners_calls env true

/-- Events emitted by `Worker::refresh_runners`: the group list (sent from
inside `get_runners`) followed by the refreshed runner list. -/
def refresh_events (env : Env) : List ApiMessage :=
  [ApiMessage.RunnerGroupList (groupsList env),
   ApiMessage.RunnerList (get_runners_result env)]

/-- One iteration of `Worker::run`'s message loop (`backend.rs` lines
89-150): the network calls issued and the events emitted while handling
one command, or `none` when the handler panics (`ChangeGroup` with an
unknown group name, or a failed repository lookup). -/
def handleMessage (env : Env) (org : String) :
    BackendMessage → Option (List NetCall × List ApiMessage)
  | .FetchGroups =>
      some ([NetCall.get_all_groups false],
            [ApiMessage.RunnerGroupList (groupsList env)])
  | .FetchRunners =>
      some (get_runners_calls env false,
            [ApiMessage.RunnerGroupList (groupsList env),
             ApiMessage.RunnerList (get_runners_result env)])
  | .AddLabel rid label =>
      some (NetCall.add_label_call rid [label] :: refresh_calls env, refresh_events env)
  | .DeleteLabel rid label =>
      some (NetCall.remove_label_call rid label :: refresh_calls env, refresh_events env)
  | .ChangeGroup rid gname =>
      match env.groups.find? (fun g => g.name == gname) with
      | none => none
      | some g =>
          some (NetCall.get_all_groups false
                  :: NetCall.add_runner_to_group rid g.id
                  :: refresh_calls env,
                refresh_events env)
  | .AddRepoToGroup rname gid =>
      match env.repo_lookup rname with
      | none => none
      | some repo =>
          some ([NetCall.get_repo org rname, NetCall.add_repo_access gid repo.id],
                [ApiMessage.Ok])
  | .CreateRunnerGroup gspec =>
      some (NetCall.create_group_call gspec :: refresh_calls env, refresh_events env)
  | .GetGroupRepos gid =>
      some ([NetCall.get_group_repos gid],
            [ApiMessage.GroupRepos (env.group_repos gid)])

/-! ## Filterable / selectable list (`src/ui.rs`)

`SelectableList<T>` holds the displayed items and a ratatui `ListState`;
`FilterableList<T>` wraps one, keeping the authoritative `items` alongside
the derived filtered view (`list.items`).  `Rc<T>` sharing is immaterial to
the values, so items are held directly.  Display formatting is passed as
an explicit `disp` function returning the character list the Rust
`to_string()` would produce. -/

/-- Rust `usize::MAX`, used by ratatui's unclamped selection moves. -/
def USIZE_MAX : Nat := 2 ^ 64 - 1

/-- ratatui `ListState` (external dependency, ratatui 0.29): the selection
index.  The viewport offset is render-only and is not modelled. -/
structure ListSelState where
  selected : Option Nat
deriving DecidableEq, Repr

/-- ratatui `ListState::select_first`: selects index 0 unconditionally. -/
def ListSelState.select_first (_ : ListSelState) : ListSelState :=
  { selected := some 0 }

/-- ratatui `ListState::select_last`: selects `usize::MAX`; the index is
only clamped later, during rendering. -/
def ListSelState.select_last (_ : ListSelState) : ListSelState :=
  { selected := some USIZE_MAX }

/-- ratatui `ListState::select_next`: `selected.map_or(0, |i| i.saturating_add(1))`. -/
def ListSelState.select_next (s : ListSelState) : ListSelState :=
  { selected := some (match s.selected with | some i => i + 1 | none => 0) }

/-- ratatui `ListState::select_previous`:
`selected.map_or(usize::MAX, |i| i.saturating_sub(1))`. -/
def ListSelState.select_previous (s : ListSelState) : ListSelState :=
  { selected := some (match s.selected with | some i => i - 1 | none => USIZE_MAX) }

/-- ratatui `ListState::select(None)`. -/
def ListSelState.select_none (_ : ListSelState) : ListSelState :=
  { selected := none }

/-- Rust `SelectableList<T>` from `ui.rs` lines 86-90. -/
structure SelectableList (α : Type) where
  items : List α
  state : ListSelState
deriving DecidableEq, Repr

/-- Rust `SelectableList::new` (`ui.rs` lines 93-100): default `ListState` has no
selection. -/
def SelectableList.new (items : List α) : SelectableList α :=
  { items := items, state := { selected := none } }

/-- Rust `SelectableList::set_items` (`ui.rs` lines 102-105): replace the items
and clear the selection. -/
def SelectableList.set_items (_ : SelectableList α) (items : List α) : SelectableList α :=
  { items := items, state := { selected := none } }

/-- Rust `SelectableList::with_first_selected`. -/
def SelectableList.with_first_selected (l : SelectableList α) : SelectableList α :=
  { l with state := l.state.select_first }

/-- Rust `SelectableList::select_first`. -/
def SelectableList.select_first (l : SelectableList α) : SelectableList α :=
  { l with state := l.state.select_first }

/-- Rust `SelectableList::select_last`. -/
def SelectableList.select_last (l : SelectableList α) : SelectableList α :=
  { l with state := l.state.select_last }

/-- Rust `SelectableList::select_next`. -/
def SelectableList.select_next (l : SelectableList α) : SelectableList α :=
  { l with state := l.state.select_next }

/-- Rust `SelectableList::select_previous`. -/
def SelectableList.select_previous (l : SelectableList α) : SelectableList α :=
  { l with state := l.state.select_previous }

/-- Rust `SelectableList::select_none`. -/
def SelectableList.select_none (l : SelectableList α) : SelectableList α :=
  { l with state := l.state.select_none }

/-- Rust `SelectableList::selected` (`ui.rs` lines 130-132):
`self.state.selected().map(|idx| self.items[idx].deref())`.  The Rust
indexing panics when the stored index is out of bounds; the partial read
is modelled with `Option`, `none` covering both "no selection" and the
out-of-bounds panic. -/
def SelectableList.selectedItem (l : SelectableList α) : Option α :=
  l.state.selected.bind (fun idx => l.items.get? idx)

/-- Rust `FilterableList<T>` from `ui.rs` lines 11-15: `list.items` is the
filtered view, `items` the authoritative list, `input_buffer` the filter
string (as characters). -/
structure FilterableList (α : Type) where
  list : SelectableList α
  items : List α
  input_buffer : List Char
deriving DecidableEq, Repr

/-- Rust `FilterableList::new` (`ui.rs` lines 18-22): the filtered view starts
as the whole item list. -/
def FilterableList.new (items : List α) : FilterableList α :=
  { list := SelectableList.new items, items := items, input_buffer := [] }

/-- Rust `FilterableList::filter_items` (`ui.rs` lines 33-38): recompute the
filtered view as the authoritative items whose display text contains the
input buffer as a substring (`str::contains`); the cursor is left
untouched. -/
def FilterableList.filter_items (disp : α → List Char) (fl : FilterableList α) :
    FilterableList α :=
  { fl with list := { fl.list with
      items := fl.items.filter (fun it => decide (fl.input_buffer <:+: disp it)) } }

/-- Rust `FilterableList::add_to_input` (`ui.rs` lines 76-78). -/
def FilterableList.add_to_input (c : Char) (fl : FilterableList α) : FilterableList α :=
  { fl with input_buffer := fl.input_buffer ++ [c] }

/-- Rust `FilterableList::update_filter` (`ui.rs` lines 71-74): append the
character, then refilter. -/
def FilterableList.update_filter (disp : α → List Char) (c : Char)
    (fl : FilterableList α) : FilterableList α :=
  (fl.add_to_input c).filter_items disp

/-- Rust `FilterableList::remove_last_input` (`ui.rs` lines 80-83): drop the
last character, then refilter. -/
def FilterableList.remove_last_input (disp : α → List Char)
    (fl : FilterableList α) : FilterableList α :=
  FilterableList.filter_items disp { fl with input_buffer := fl.input_buffer.dropLast }

/-- Rust `FilterableList::with_first_selected`. -/
def FilterableList.with_first_selected (fl : FilterableList α) : FilterableList α :=
  { fl with list := fl.list.select_first }

/-- Rust `FilterableList::select_first`. -/
def FilterableList.select_first (fl : FilterableList α) : FilterableList α :=
  { fl with list := fl.list.select_first }

/-- Rust `FilterableList::select_last`. -/
def FilterableList.select_last (fl : FilterableList α) : FilterableList α :=
  { fl with list := fl.list.select_last }

/-- Rust `FilterableList::select_next`. -/
def FilterableList.select_next (fl : FilterableList α) : FilterableList α :=
  { fl with list := fl.list.select_next }

/-- Rust `FilterableList::select_previous`. -/
def FilterableList.select_previous (fl : FilterableList α) : FilterableList α :=
  { fl with list := fl.list.select_previous }

/-- Rust `FilterableList::select_none`. -/
def FilterableList.select_none (fl : FilterableList α) : FilterableList α :=
  { fl with list := fl.list.select_none }

/-- Rust `FilterableList::selected` (`ui.rs` lines 67-69): delegates to the
inner selectable list, i.e. indexes the filtered view. -/
def FilterableList.selectedItem (fl : FilterableList α) : Option α :=
  fl.list.selectedItem

/-- The operations `runners_tab.rs`/`groups_tab.rs`/`ui.rs` perform on a
`FilterableList`, for stating state-machine invariants. -/
inductive FLOp (α : Type) where
  | set_items_refilter (items : List α)
  | filter_items
  | update_filter (c : Char)
  | remove_last_input
  | select_first
  | select_last
  | select_next
  | select_previous
  | select_none
deriving DecidableEq, Repr

/-- Apply one `FLOp`.  `set_items_refilter` is the tabs' refresh path
(`runners_tab.rs` `set_runners`, `groups_tab.rs` `set_groups`): overwrite
`items`, then `filter_items`; the cursor is not touched. -/
def FilterableList.applyOp (disp : α → List Char) (fl : FilterableList α) :
    FLOp α → FilterableList α
  | .set_items_refilter items => FilterableList.filter_items disp { fl with items := items }
  | .filter_items => fl.filter_items disp
  | .update_filter c => fl.update_filter disp c
  | .remove_last_input => fl.remove_last_input disp
  | .select_first => fl.select_first
  | .select_last => fl.select_last
  | .select_next => fl.select_next
  | .select_previous => fl.select_previous
  | .select_none => fl.select_none

/-- The C9 invariant as the spec states it: the filtered view is an
order-preserving subsequence of the items, and the cursor, when present,
is a valid index into the filtered view. -/
def FilterableList.specInv (fl : FilterableList α) : Prop :=
  List.Sublist fl.list.items fl.items ∧
    ∀ i, fl.list.state.selected = some i → i < fl.list.items.length

/-! ## Navigation (`src/runners_tab.rs`, `src/tabs/groups_tab.rs`, `src/main.rs`)

Keystrokes come in as a `KeyCode`; a handler returns the new tab state,
the commands it sent to the worker, and the boolean the Rust function
returns (`true` = exit request), or `none` when the Rust code would panic
on a failed `unwrap`. -/

/-- The crossterm key codes the handlers match on. -/
inductive KeyCode where
  | Esc
  | Left
  | Right
  | Up
  | Down
  | Home
  | End
  | Enter
  | Backspace
  | Tab
  | Char (c : Char)
  | Other
deriving DecidableEq, Repr

/-- Modelled from the spec: `PopupInfo` lives in the crate root module,
which is not among the provided sources (the `main.rs` present is an
earlier iteration without it).  Per the spec a popup carries a title, a
dynamically computed content and the loading flag; `is_loading`
distinguishes the loading popup from a text-input popup. -/
structure PopupInfo where
  title : String
  is_loading : Bool
deriving DecidableEq, Repr

/-- Modelled from the spec: `PopupInfo::loading()`, the loading popup shown
while a mutating command's refresh is outstanding. -/
def PopupInfo.loading : PopupInfo :=
  { title := "Loading", is_loading := true }

/-- Modelled from the spec: `PopupInfo::new_dynamic(title, content)`, a
text-input popup (not a loading popup); the dynamic content closure only
affects rendering and is not modelled. -/
def PopupInfo.new_dynamic (title : String) : PopupInfo :=
  { title := title, is_loading := false }

/-- Rust `RunnerOperation` from `ui.rs` lines 176-180. -/
inductive RunnerOperation where
  | AddLabel
  | RemoveLabel
  | ChangeGroup
deriving DecidableEq, Repr

/-- Rust `RunnerOperation::all` (`ui.rs` lines 193-197). -/
def RunnerOperation.all : List RunnerOperation :=
  [RunnerOperation.AddLabel, RunnerOperation.RemoveLabel, RunnerOperation.ChangeGroup]

/-- Rust `GroupOperation` from `ui.rs` lines 199-203. -/
inductive GroupOperation where
  | AddRepo
  | CreateGroup
  | GetRepos
deriving DecidableEq, Repr

/-- Rust `GroupOperation::all` (`ui.rs` lines 216-220) — note the order. -/
def GroupOperation.all : List GroupOperation :=
  [GroupOperation.CreateGroup, GroupOperation.GetRepos, GroupOperation.AddRepo]

/-- Rust `Stage` from `runners_tab.rs` lines 12-17. -/
inductive RunnersStage where
  | SelectRunner
  | SelectOp
  | RemoveLabels
  | AddToGroup
deriving DecidableEq, Repr

/-- Rust `RunnersTab` from `runners_tab.rs` lines 19-27.  The dynamic sub-list
holds `Box<dyn Display>` values shown by their display text, so it is a
list of strings here (for `RemoveLabels` those are the runner's labels,
whose display text is the label itself).  The input buffer is kept as a
character list. -/
structure RunnersTab where
  runners : FilterableList Runner
  operations : SelectableList RunnerOperation
  dynamic_list : SelectableList String
  stage : RunnersStage
  input_buffer : List Char
  popup_content : Option PopupInfo
deriving DecidableEq, Repr

/-- Rust `RunnersTab::new` (`runners_tab.rs` lines 30-40). -/
def RunnersTab.new (runners : List Runner) : RunnersTab :=
  { runners := (FilterableList.new runners).with_first_selected
    operations := (SelectableList.new RunnerOperation.all).with_first_selected
    dynamic_list := SelectableList.new []
    stage := RunnersStage.SelectRunner
    input_buffer := []
    popup_content := none }

/-- Rust `RunnersTab::toggle_loading` (`runners_tab.rs` lines 42-48): close the
popup only when it is the loading popup. -/
def RunnersTab.toggle_loading (t : RunnersTab) : RunnersTab :=
  match t.popup_content with
  | some p => if p.is_loading then { t with popup_content := none } else t
  | none => t

/-- Rust `RunnersTab::set_runners` (`runners_tab.rs` lines 50-55): replace the
authoritative items, refilter against the existing filter text, clear a
loading popup, return to the `SelectRunner` stage.  The cursor is not
touched. -/
def RunnersTab.set_runners (t : RunnersTab) (runners : List Runner) : RunnersTab :=
  let t1 := { t with runners :=
    FilterableList.filter_items Runner.display { t.runners with items := runners } }
  { t1.toggle_loading with stage := RunnersStage.SelectRunner }

/-- Rust `RunnersTab::add_label` (`runners_tab.rs` lines 93-99): open the
loading popup, drain the input buffer, and send `AddLabel(selected runner
id, input)`; panics (`none`) when no runner is selected. -/
def RunnersTab.add_label (t : RunnersTab) : Option (RunnersTab × List BackendMessage) :=
  let t1 := { t with popup_content := some PopupInfo.loading }
  let input := String.mk t1.input_buffer
  let t2 := { t1 with input_buffer := [] }
  match t2.runners.selectedItem with
  | none => none
  | some r => some (t2, [BackendMessage.AddLabel r.id input])

/-- Rust `RunnersTab::remove_label` (`runners_tab.rs` lines 101-108): open the
loading popup and send `DeleteLabel(selected runner id, selected label)`. -/
def RunnersTab.remove_label (t : RunnersTab) : Option (RunnersTab × List BackendMessage) :=
  let t1 := { t with popup_content := some PopupInfo.loading }
  match t1.runners.selectedItem, t1.dynamic_list.selectedItem with
  | some r, some label => some (t1, [BackendMessage.DeleteLabel r.id label])
  | _, _ => none

/-- Rust `RunnersTab::add_to_group` (`runners_tab.rs` lines 110-117): opens the
loading popup and reads the selections, but the send is commented out in
the source — no command is dispatched. -/
def RunnersTab.add_to_group (t : RunnersTab) : Option (RunnersTab × List BackendMessage) :=
  let t1 := { t with popup_content := some PopupInfo.loading }
  match t1.runners.selectedItem, t1.dynamic_list.selectedItem with
  | some _, some _ => some (t1, [])
  | _, _ => none

/-- Rust `RunnersTab::handle_input` (`runners_tab.rs` lines 119-200). -/
def RunnersTab.handle_input (t : RunnersTab) (key : KeyCode) :
    Option (RunnersTab × List BackendMessage × Bool) :=
  if key = KeyCode.Esc ∧ t.popup_content = none then some (t, [], true)
  else
    match t.stage with
    | RunnersStage.SelectRunner =>
        match key with
        | .Left => some ({ t with runners := t.runners.select_none }, [], false)
        | .Down => some ({ t with runners := t.runners.select_next }, [], false)
        | .Up => some ({ t with runners := t.runners.select_previous }, [], false)
        | .Home => some ({ t with runners := t.runners.select_first }, [], false)
        | .End => some ({ t with runners := t.runners.select_last }, [], false)
        | .Right | .Enter => some ({ t with stage := RunnersStage.SelectOp }, [], false)
        | .Backspace =>
            some ({ t with runners := t.runners.remove_last_input Runner.display }, [], false)
        | .Char c =>
            some ({ t with runners := t.runners.update_filter Runner.display c }, [], false)
        | _ => some (t, [], false)
    | RunnersStage.SelectOp =>
        match key with
        | .Up => some ({ t with operations := t.operations.select_previous }, [], false)
        | .Down => some ({ t with operations := t.operations.select_next }, [], false)
        | .Left => some ({ t with stage := RunnersStage.SelectRunner }, [], false)
        | .Char c =>
            match t.popup_content with
            | some _ => some ({ t with input_buffer := t.input_buffer ++ [c] }, [], false)
            | none => some (t, [], false)
        | .Backspace => some ({ t with input_buffer := t.input_buffer.dropLast }, [], false)
        | .Right | .Enter =>
            match t.operations.selectedItem with
            | some RunnerOperation.AddLabel =>
                match t.popup_content with
                | some _ => (t.add_label).map (fun p => (p.1, p.2, false))
                | none =>
                    let pc := some (PopupInfo.new_dynamic ("Input new label:"))
                    some ({ t with popup_content := pc }, [], false)
            | some RunnerOperation.RemoveLabel =>
                match t.runners.selectedItem with
                | none => none
                | some r =>
                    some ({ t with
                      dynamic_list := t.dynamic_list.set_items r.labels
                      stage := RunnersStage.RemoveLabels }, [], false)
            | some RunnerOperation.ChangeGroup =>
                some ({ t with stage := RunnersStage.AddToGroup }, [], false)
            | none => some (t, [], false)
        | _ => some (t, [], false)
    | RunnersStage.RemoveLabels =>
        match key with
        | .Up => some ({ t with dynamic_list := t.dynamic_list.select_previous }, [], false)
        | .Down => some ({ t with dynamic_list := t.dynamic_list.select_next }, [], false)
        | .Left => some ({ t with stage := RunnersStage.SelectOp }, [], false)
        | .Enter => (t.remove_label).map (fun p => (p.1, p.2, false))
        | _ => some (t, [], false)
    | RunnersStage.AddToGroup =>
        match key with
        | .Up => some ({ t with dynamic_list := t.dynamic_list.select_previous }, [], false)
        | .Down => some ({ t with dynamic_list := t.dynamic_list.select_next }, [], false)
        | .Left => some ({ t with stage := RunnersStage.SelectOp }, [], false)
        | .Enter => (t.add_to_group).map (fun p => (p.1, p.2, false))
        | _ => some (t, [], false)

/-- Rust `Stage` from `tabs/groups_tab.rs` lines 16-22. -/
inductive GroupsStage where
  | SelectGroup
  | SelectOperation
  | CreateGroup
  | AddRepo
  | ListRepos
deriving DecidableEq, Repr

/-- Rust `RunnersGroupsTab` from `tabs/groups_tab.rs` lines 24-32.  Like the
runners tab, the dynamic `Box<dyn Display>` sub-list is kept as the
display strings (for `ListRepos` those are repository names). -/
structure RunnersGroupsTab where
  groups : FilterableList RunnerGroup
  operations : SelectableList GroupOperation
  dynamic_list : SelectableList String
  stage : GroupsStage
  input_buffer : List Char
  popup_content : Option PopupInfo
deriving DecidableEq, Repr

/-- Rust `RunnersGroupsTab::new` (`tabs/groups_tab.rs` lines 35-46). -/
def RunnersGroupsTab.new (groups : List RunnerGroup) : RunnersGroupsTab :=
  { groups := (FilterableList.new groups).with_first_selected
    operations := (SelectableList.new GroupOperation.all).with_first_selected
    dynamic_list := SelectableList.new []
    stage := GroupsStage.SelectGroup
    input_buffer := []
    popup_content := none }

/-- Rust `RunnersGroupsTab::toggle_loading` (`tabs/groups_tab.rs` lines 48-54). -/
def RunnersGroupsTab.toggle_loading (t : RunnersGroupsTab) : RunnersGroupsTab :=
  match t.popup_content with
  | some p => if p.is_loading then { t with popup_content := none } else t
  | none => t

/-- Rust `RunnersGroupsTab::add_repo` (`tabs/groups_tab.rs` lines 88-95): open
the loading popup, drain the input, send `AddRepoToGroup(input, selected
group id)`, and drop back to the `SelectGroup` stage. -/
def RunnersGroupsTab.add_repo (t : RunnersGroupsTab) :
    Option (RunnersGroupsTab × List BackendMessage) :=
  let t1 := { t with popup_content := some PopupInfo.loading }
  let input := String.mk t1.input_buffer
  let t2 := { t1 with input_buffer := [] }
  match t2.groups.selectedItem with
  | none => none
  | some g => some ({ t2 with stage := GroupsStage.SelectGroup },
                    [BackendMessage.AddRepoToGroup input g.id])

/-- Rust `RunnersGroupsTab::get_repos` (`tabs/groups_tab.rs` lines 97-101):
send `GetGroupRepos(selected group id)`; no popup is opened. -/
def RunnersGroupsTab.get_repos (t : RunnersGroupsTab) :
    Option (RunnersGroupsTab × List BackendMessage) :=
  match t.groups.selectedItem with
  | none => none
  | some g => some (t, [BackendMessage.GetGroupRepos g.id])

/-- Rust `RunnersGroupsTab::create_runner_group` (`tabs/groups_tab.rs` lines
103-113): build the creation request from the drained input (visibility
`Selected`, no runners, no repositories), send `CreateRunnerGroup`, and
drop back to the `SelectGroup` stage. -/
def RunnersGroupsTab.create_runner_group (t : RunnersGroupsTab) :
    Option (RunnersGroupsTab × List BackendMessage) :=
  let gspec : ApiRunnerGroupCreate :=
    { name := String.mk t.input_buffer
      visibility := RunnerGroupVisibility.Selected
      runners := []
      selected_repository_ids := [] }
  some ({ t with input_buffer := [], stage := GroupsStage.SelectGroup },
        [BackendMessage.CreateRunnerGroup gspec])

/-- Rust `RunnersGroupsTab::handle_input` (`tabs/groups_tab.rs` lines 136-223). -/
def RunnersGroupsTab.handle_input (t : RunnersGroupsTab) (key : KeyCode) :
    Option (RunnersGroupsTab × List BackendMessage × Bool) :=
  if key = KeyCode.Esc ∧ t.popup_content = none then some (t, [], true)
  else
    match t.stage with
    | GroupsStage.SelectGroup =>
        match key with
        | .Left => some ({ t with groups := t.groups.select_none }, [], false)
        | .Down => some ({ t with groups := t.groups.select_next }, [], false)
        | .Up => some ({ t with groups := t.groups.select_previous }, [], false)
        | .Home => some ({ t with groups := t.groups.select_first }, [], false)
        | .End => some ({ t with groups := t.groups.select_last }, [], false)
        | .Right | .Enter => some ({ t with stage := GroupsStage.SelectOperation }, [], false)
        | .Backspace =>
            some ({ t with groups := t.groups.remove_last_input RunnerGroup.display }, [], false)
        | .Char c =>
            some ({ t with groups := t.groups.update_filter RunnerGroup.display c }, [], false)
        | _ => some (t, [], false)
    | GroupsStage.SelectOperation =>
        match key with
        | .Up => some ({ t with operations := t.operations.select_previous }, [], false)
        | .Down => some ({ t with operations := t.operations.select_next }, [], false)
        | .Left => some ({ t with stage := GroupsStage.SelectGroup }, [], false)
        | .Char c =>
            match t.popup_content with
            | some _ => some ({ t with input_buffer := t.input_buffer ++ [c] }, [], false)
            | none => some (t, [], false)
        | .Backspace => some ({ t with input_buffer := t.input_buffer.dropLast }, [], false)
        | .Right | .Enter =>
            match t.operations.selectedItem with
            | some GroupOperation.AddRepo =>
                let pc := some (PopupInfo.new_dynamic ("Input repo name:"))
                some ({ t with popup_content := pc, stage := GroupsStage.AddRepo }, [], false)
            | some GroupOperation.CreateGroup =>
                let pc := some (PopupInfo.new_dynamic ("Input group name:"))
                some ({ t with popup_content := pc, stage := GroupsStage.CreateGroup }, [], false)
            | some GroupOperation.GetRepos =>
                (t.get_repos).map (fun p => (p.1, p.2, false))
            | none => some (t, [], false)
        | _ => some (t, [], false)
    | GroupsStage.AddRepo =>
        match key with
        | .Enter => (t.add_repo).map (fun p => (p.1, p.2, false))
        | .Esc =>
            some ({ t with popup_content := none, stage := GroupsStage.SelectOperation },
                  [], false)
        | .Char c => some ({ t with input_buffer := t.input_buffer ++ [c] }, [], false)
        | .Backspace => some ({ t with input_buffer := t.input_buffer.dropLast }, [], false)
        | _ => some (t, [], false)
    | GroupsStage.ListRepos =>
        match key with
        | .Left => some ({ t with stage := GroupsStage.SelectOperation }, [], false)
        | _ => some (t, [], false)
    | GroupsStage.CreateGroup =>
        match key with
        | .Enter => (t.create_runner_group).map (fun p => (p.1, p.2, false))
        | .Esc =>
            some ({ t with popup_content := none, stage := GroupsStage.SelectOperation },
                  [], false)
        | .Char c => some ({ t with input_buffer := t.input_buffer ++ [c] }, [], false)
        | .Backspace => some ({ t with input_buffer := t.input_buffer.dropLast }, [], false)
        | _ => some (t, [], false)

/-- Rust `Tab` from `main.rs` lines 521-528 (the earlier `AppState` iteration
kept in the repo): the top-level tab doubles as the stage. -/
inductive AppTab where
  | Runners
  | RunnerGroups
  | RunnerOpSelection
  | RemoveLabels
  | GroupOpSelection
deriving DecidableEq, Repr

/-- The slice of `AppState` (`main.rs` lines 63-79) that the Escape branch
of `handle_key` reads and writes: the popup flag and the exit flag (plus
the current tab, carried to state where the key arrives). -/
structure AppEscState where
  selected_tab : AppTab
  show_popup : Bool
  should_exit : Bool
deriving DecidableEq, Repr

/-- The Escape branch of `AppState::handle_key` (`main.rs` lines 258-265):
with a popup open, close it and nothing else; otherwise set the exit flag
— whatever the current tab/stage is. -/
def AppEscState.handle_key_esc (s : AppEscState) : AppEscState :=
  if s.show_popup then { s with show_popup := false }
  else { s with should_exit := true }

/-! ## Concrete fixtures used by witnesses and counterexamples -/

/-- A runner with one custom and one read-only label. -/
def apiR1 : ApiRunner :=
  { id := 1, name := "r1", os := "linux", status := "online", busy := false,
    ephemeral := none,
    labels := [{ id := 100, name := "gpu", label_type := "custom" },
               { id := 101, name := "linux", label_type := "read-only" }],
    group_id := 0 }

/-- A busy runner with no labels. -/
def apiR2 : ApiRunner :=
  { id := 2, name := "r2", os := "linux", status := "online", busy := true,
    ephemeral := none, labels := [], group_id := 0 }

/-- A third runner, in the second group. -/
def apiR3 : ApiRunner :=
  { id := 3, name := "r3", os := "linux", status := "offline", busy := false,
    ephemeral := some false, labels := [], group_id := 0 }

/-- An environment with groups `A → [r1, r2]` and `B → [r3]` (disjoint
runner ids) and one known repository. -/
def envAB : Env :=
  { groups := [{ id := 10, name := "A", visibility := RunnerGroupVisibility.Selected },
               { id := 20, name := "B", visibility := RunnerGroupVisibility.All }]
    group_runners := fun gid =>
      if gid = 10 then [apiR1, apiR2] else if gid = 20 then [apiR3] else []
    repo_lookup := fun rn =>
      if rn = "repo1" then some { id := 77, name := "repo1" } else none
    group_repos := fun _ => [] }

/-- A group-creation request fixture. -/
def specG : ApiRunnerGroupCreate :=
  { name := "G", visibility := RunnerGroupVisibility.Selected,
    selected_repository_ids := [], runners := [] }

/-- A runner fixture for the navigation claims. -/
def r7 : Runner :=
  { id := 7, status := RunnerStatus.Online, name := "runner7",
    labels := ["gpu"], group := some ("A") }

/-- The runners tab right after an AddLabel commit: stage `SelectOp`,
AddLabel highlighted, the loading popup open, the input buffer drained —
the state from which the matching RunnerList event is still outstanding. -/
def loadingTab : RunnersTab :=
  { runners := { list := { items := [r7], state := { selected := some 0 } },
                 items := [r7], input_buffer := [] }
    operations := (SelectableList.new RunnerOperation.all).with_first_selected
    dynamic_list := SelectableList.new []
    stage := RunnersStage.SelectOp
    input_buffer := []
    popup_content := some PopupInfo.loading }

/-- The runners tab in the `SelectOp` sub-stage with no popup open. -/
def selOpTab : RunnersTab :=
  { RunnersTab.new [r7] with stage := RunnersStage.SelectOp }

/-- A filterable list over character lists, displayed as themselves. -/
def flAB : FilterableList (List Char) := FilterableList.new [['a'], ['b']]

/-- A filterable list holding the single item `"ab"` with the cursor on it. -/
def flC9 : FilterableList (List Char) :=
  { list := { items := [['a', 'b']], state := { selected := some 0 } }
    items := [['a', 'b']]
    input_buffer := [] }

/-! ## Shared helper lemmas -/

/-- Every call of a cache-bypassing refresh carries the skip-cache flag. -/
theorem refresh_calls_all_bypassing (env : Env) :
    ∀ c ∈ refresh_calls env, c.isCacheBypassingRead = true := by
  intro c hc
  simp only [refresh_calls, get_runners_calls, List.mem_cons, List.mem_map] at hc
  rcases hc with rfl | ⟨g, _, rfl⟩ <;> rfl

/-- A refresh issues no mutating call. -/
theorem refresh_calls_no_mutating (env : Env) :
    (refresh_calls env).countP NetCall.isMutating = 0 := by
  rw [List.countP_eq_zero]
  intro c hc
  simp only [refresh_calls, get_runners_calls, List.mem_cons, List.mem_map] at hc
  rcases hc with rfl | ⟨g, _, rfl⟩ <;> simp [NetCall.isMutating]

/-- Lookup with `find?` on an association list with distinct keys returns the unique
binding of the key. -/
theorem find?_eq_of_nodup_keys {β : Type} (cs : List (Nat × β)) (i : Nat) (x : β)
    (hnd : (cs.map Prod.fst).Nodup) (hmem : (i, x) ∈ cs) :
    cs.find? (fun p => p.1 == i) = some (i, x) := by
  induction cs with
  | nil => simp at hmem
  | cons hd tl ih =>
    rcases List.mem_cons.mp hmem with h | h
    · subst h
      simp [List.find?_cons_of_pos]
    · have hi : i ∈ tl.map Prod.fst := List.mem_map.mpr ⟨(i, x), h, rfl⟩
      have hne : hd.1 ≠ i := by
        intro he
        exact (List.nodup_cons.mp hnd).1 (he ▸ hi)
      rw [List.find?_cons_of_neg _ (by simpa using hne)]
      exact ih (List.nodup_cons.mp hnd).2 h

/-- Semantics of `join_all`: merging any completion order of the dispatched
futures reconstructs the dispatch-order result list. -/
theorem joinAll_of_perm (l : List (List Runner)) (cs : List (Nat × List Runner))
    (h : cs.Perm l.enum) : joinAll l.length cs = l := by
  apply List.ext_getElem
  · simp [joinAll]
  · intro i h1 h2
    have hlen : i < l.length := h2
    have hkeys : (cs.map Prod.fst).Nodup := by
      refine ((h.map Prod.fst).nodup_iff).mpr ?_
      rw [List.enum_map_fst]
      exact List.nodup_range _
    have hmem : (i, l[i]) ∈ cs := by
      refine h.mem_iff.mpr ?_
      have hi : i < l.enum.length := by simpa using hlen
      have he : l.enum[i] = (i, l[i]) := List.getElem_enum l i _
      exact he ▸ List.getElem_mem _
    simp only [joinAll, List.getElem_map, List.getElem_range]
    rw [find?_eq_of_nodup_keys cs i l[i] hkeys hmem]
    rfl

/-- Tagging a group's runners preserves their ids. -/
theorem tagRunners_map_id (gname : String) (rs : List ApiRunner) :
    (tagRunners gname rs).map Runner.id = rs.map ApiRunner.id := by
  simp [tagRunners, Runner.fromApi, List.map_map, Function.comp]

/-! ## C3 — cache TTL -/

/-- C3: a lookup after an insert returns the stored value exactly when the
elapsed time since the entry was stamped is strictly below its ttl (in
particular an immediate lookup hits, and once more than ttl has passed it
misses); the expired entry is not evicted — the key is still bound. -/
theorem cache_get_after_insert_iff {T : Type} (c : Cache T) (k : String) (v : T)
    (ttl t0 t1 : Nat) (h : t0 ≤ t1) :
    ((c.insert_with_ttl t0 k v (some ttl)).get t1 k = some v ↔ t1 - t0 < ttl) ∧
    ((c.insert_with_ttl t0 k v (some ttl)).entries.map Prod.fst).contains k = true := by
  constructor
  · simp only [Cache.insert_with_ttl, Cache.get, CacheEntry.new, Option.getD]
    rw [List.find?_cons_of_pos _ (by simp)]
    simp only [Option.map_some, Option.filter, CacheEntry.is_expired]
    constructor
    · intro hv
      by_cases hc : (decide (t0 ≤ t1) && decide (t1 < t0 + ttl)) = true
      · simp only [Bool.and_eq_true, decide_eq_true_eq] at hc
        omega
      · simp [hc] at hv
    · intro hlt
      have hc : (decide (t0 ≤ t1) && decide (t1 < t0 + ttl)) = true := by
        simp only [Bool.and_eq_true, decide_eq_true_eq]
        omega
      simp [hc]
  · simp [Cache.insert_with_ttl]

/-- C3 witness: an immediate lookup after `put("k", 5, ttl = 1)` at time 0
returns the value, and the key stays bound. -/
theorem cache_get_after_insert_iff_witness :
    (0 : Nat) ≤ 0 ∧
      ((((Cache.new (T := Nat)).insert_with_ttl 0 "k" 5 (some 1)).get 0 "k" = some 5 ↔
          0 - 0 < 1) ∧
        ((((Cache.new (T := Nat)).insert_with_ttl 0 "k" 5 (some 1)).entries.map
            Prod.fst).contains ("k") = true)) :=
  ⟨Nat.le_refl 0, cache_get_after_insert_iff Cache.new ("k") 5 1 0 0 (Nat.le_refl 0)⟩

/-! ## C10 — runner ingestion -/

/-- C10: a converted runner is `Busy` exactly when the busy flag is set and
`Online` otherwise; `Offline` is never produced; the remote status string
is ignored (changing it does not change the conversion); and only the
`"custom"`-typed labels are kept. -/
theorem runner_fromApi_ingestion (r : ApiRunner) (s : String) :
    ((Runner.fromApi r).status = RunnerStatus.Busy ↔ r.busy = true) ∧
    ((Runner.fromApi r).status = RunnerStatus.Online ↔ r.busy = false) ∧
    (Runner.fromApi r).status ≠ RunnerStatus.Offline ∧
    Runner.fromApi { r with status := s } = Runner.fromApi r ∧
    (Runner.fromApi r).labels
      = (r.labels.filter (fun l => l.label_type == "custom")).map (fun l => l.name) := by
  cases hb : r.busy <;> simp [Runner.fromApi, hb]

/-! ## C1 — fan-out merge in dispatch order -/

/-- C1: whatever order the per-group fetches complete in (any permutation
of the dispatched futures), the merged RunnerList equals the concatenation,
in group-list order, of each group's runner list with every runner tagged
with that group's name; FetchRunners emits exactly the group-list event
followed by that RunnerList; and when the per-group runner ids are globally
distinct the merge has no duplicate ids. -/
theorem fetchRunners_merge_dispatch_order (env : Env) (org : String)
    (cs : List (Nat × List Runner)) (hperm : cs.Perm (dispatched env))
    (hids : (List.flatMap env.groups
        (fun g => (env.group_runners g.id).map ApiRunner.id)).Nodup) :
    mergedRunners env cs
      = List.flatMap env.groups (fun g => tagRunners g.name (env.group_runners g.id)) ∧
    (handleMessage env org BackendMessage.FetchRunners).map Prod.snd
      = some [ApiMessage.RunnerGroupList (groupsList env),
              ApiMessage.RunnerList (mergedRunners env cs)] ∧
    ((mergedRunners env cs).map Runner.id).Nodup := by
  have hflat : (fanout env).flatten
      = List.flatMap env.groups (fun g => tagRunners g.name (env.group_runners g.id)) := by
    rw [fanout, ← List.flatMap_def]
  have hm : mergedRunners env cs = (fanout env).flatten := by
    have hlen : env.groups.length = (fanout env).length := by simp [fanout]
    rw [mergedRunners, hlen, joinAll_of_perm (fanout env) cs (by exact hperm)]
  refine ⟨hm.trans hflat, ?_, ?_⟩
  · simp only [handleMessage, Option.map_some]
    rw [hm]
    rfl
  · rw [hm.trans hflat, List.map_flatMap]
    have hcong : (fun g => (tagRunners g.name (env.group_runners g.id)).map Runner.id)
        = fun (g : ApiRunnerGroup) => (env.group_runners g.id).map ApiRunner.id := by
      funext g
      exact tagRunners_map_id g.name (env.group_runners g.id)
    rw [hcong]
    exact hids

/-- C1 witness: for the two-group environment `A → [r1, r2]`, `B → [r3]`
with the fetches completing in reverse dispatch order, the merged list is
still the dispatch-order concatenation. -/
theorem fetchRunners_merge_dispatch_order_witness :
    (((dispatched envAB).reverse).Perm (dispatched envAB) ∧
      (List.flatMap envAB.groups
        (fun g => (envAB.group_runners g.id).map ApiRunner.id)).Nodup) ∧
    (mergedRunners envAB ((dispatched envAB).reverse)
        = List.flatMap envAB.groups (fun g => tagRunners g.name (envAB.group_runners g.id)) ∧
      (handleMessage envAB ("org") BackendMessage.FetchRunners).map Prod.snd
        = some [ApiMessage.RunnerGroupList (groupsList envAB),
                ApiMessage.RunnerList (mergedRunners envAB ((dispatched envAB).reverse))] ∧
      ((mergedRunners envAB ((dispatched envAB).reverse)).map Runner.id).Nodup) :=
  ⟨⟨List.reverse_perm (dispatched envAB), by decide⟩,
   fetchRunners_merge_dispatch_order envAB ("org") ((dispatched envAB).reverse)
     (List.reverse_perm (dispatched envAB)) (by decide)⟩

/-! ## C2 — CreateRunnerGroup / AddRepoToGroup -/

/-- C2 counterexample: at `envAB`, handling CreateRunnerGroup emits no Ok
event at all, and handling AddRepoToGroup performs no runner refresh — its
whole trace is the repo lookup, the access-add call, and a lone Ok event.
This falsifies the claim that each of the two commands is followed by both
a full refresh and an Ok event. -/
theorem createGroup_addRepo_claim_false :
    ApiMessage.Ok ∉
      ((handleMessage envAB ("org") (BackendMessage.CreateRunnerGroup specG)).map
        Prod.snd).getD [] ∧
    handleMessage envAB ("org") (BackendMessage.AddRepoToGroup ("repo1") 10)
      = some ([NetCall.get_repo ("org") "repo1", NetCall.add_repo_access 10 77],
              [ApiMessage.Ok]) := by
  constructor
  · decide
  · rfl

/-- C2 amended: CreateRunnerGroup issues its single mutating call and then
a full cache-bypassing runner refresh, but emits no Ok event; a successful
AddRepoToGroup resolves the repository, issues its single mutating call and
emits only an Ok event, with no runner refresh. -/
theorem createGroup_addRepo_behaviour (env : Env) (org : String)
    (gspec : ApiRunnerGroupCreate) (rname : String) (gid : Nat) (repo : ApiRepository)
    (hrepo : env.repo_lookup rname = some repo) :
    handleMessage env org (BackendMessage.CreateRunnerGroup gspec)
      = some (NetCall.create_group_call gspec :: refresh_calls env, refresh_events env) ∧
    ApiMessage.Ok ∉ refresh_events env ∧
    (∀ c ∈ refresh_calls env, c.isCacheBypassingRead = true) ∧
    handleMessage env org (BackendMessage.AddRepoToGroup rname gid)
      = some ([NetCall.get_repo org rname, NetCall.add_repo_access gid repo.id],
              [ApiMessage.Ok]) := by
  refine ⟨rfl, ?_, refresh_calls_all_bypassing env, ?_⟩
  · simp [refresh_events]
  · simp [handleMessage, hrepo]

/-- C2 amended witness: the behaviour at `envAB` with the known repository. -/
theorem createGroup_addRepo_behaviour_witness :
    envAB.repo_lookup ("repo1") = some { id := 77, name := "repo1" } ∧
    (handleMessage envAB ("org") (BackendMessage.CreateRunnerGroup specG)
        = some (NetCall.create_group_call specG :: refresh_calls envAB,
                refresh_events envAB) ∧
      ApiMessage.Ok ∉ refresh_events envAB ∧
      (∀ c ∈ refresh_calls envAB, c.isCacheBypassingRead = true) ∧
      handleMessage envAB ("org") (BackendMessage.AddRepoToGroup ("repo1") 10)
        = some ([NetCall.get_repo ("org") "repo1", NetCall.add_repo_access 10 77],
                [ApiMessage.Ok])) :=
  ⟨rfl, createGroup_addRepo_behaviour envAB ("org") specG ("repo1") 10
          { id := 77, name := "repo1" } rfl⟩

/-! ## C4 — AddLabel / DeleteLabel refresh -/

/-- C4: AddLabel and DeleteLabel each issue exactly one mutating call, then
re-run the full fetch sequence with the cache bypassed on every read, and
emit the group list followed by the RunnerList rebuilt purely from the
server responses (the emitted payload is a function of the environment
alone — no optimistic local mutation of the label). -/
theorem addLabel_deleteLabel_refresh (env : Env) (org : String) (rid : Nat)
    (label : String) :
    handleMessage env org (BackendMessage.AddLabel rid label)
      = some (NetCall.add_label_call rid [label] :: refresh_calls env,
              refresh_events env) ∧
    handleMessage env org (BackendMessage.DeleteLabel rid label)
      = some (NetCall.remove_label_call rid label :: refresh_calls env,
              refresh_events env) ∧
    (NetCall.add_label_call rid [label] :: refresh_calls env).countP NetCall.isMutating
      = 1 ∧
    (NetCall.remove_label_call rid label :: refresh_calls env).countP NetCall.isMutating
      = 1 ∧
    (∀ c ∈ refresh_calls env, c.isCacheBypassingRead = true) ∧
    refresh_events env
      = [ApiMessage.RunnerGroupList (groupsList env),
         ApiMessage.RunnerList (get_runners_result env)] := by
  refine ⟨rfl, rfl, ?_, ?_, refresh_calls_all_bypassing env, rfl⟩ <;>
    simp [List.countP_cons, refresh_calls_no_mutating env, NetCall.isMutating]

/-! ## C5 — ChangeGroup -/

/-- C5 counterexample: at `envAB`, the group-resolution fetch of
ChangeGroup and the membership-add that follows it are
`get_all_groups false` then `add_runner_to_group` — the resolution honors
the cache; no cache-bypassing group fetch happens before the membership
add, falsifying the "freshly fetched (cache-bypassing) group list" part of
the claim. -/
theorem changeGroup_resolution_honors_cache :
    ((handleMessage envAB ("org") (BackendMessage.ChangeGroup 1 "A")).map
        (fun p => p.1.take 2)).getD []
      = [NetCall.get_all_groups false, NetCall.add_runner_to_group 1 10] ∧
    NetCall.get_all_groups true ∉
      ((handleMessage envAB ("org") (BackendMessage.ChangeGroup 1 "A")).map
        (fun p => p.1.take 2)).getD [] := by
  constructor
  · rfl
  · decide

/-- C5 amended: ChangeGroup resolves the named group by a linear scan
(`find?`) over a group list fetched with the cache honored (skip-cache
false, not bypassing); it fails hard (worker panic, modelled `none`) when
no group with that name exists, and otherwise issues the membership-add
call followed by a full cache-bypassing runner refresh. -/
theorem changeGroup_behaviour (env : Env) (org : String) (rid : Nat) (gname : String) :
    (env.groups.find? (fun g => g.name == gname) = none →
      handleMessage env org (BackendMessage.ChangeGroup rid gname) = none) ∧
    (∀ g, env.groups.find? (fun g2 => g2.name == gname) = some g →
      handleMessage env org (BackendMessage.ChangeGroup rid gname)
        = some (NetCall.get_all_groups false
                  :: NetCall.add_runner_to_group rid g.id
                  :: refresh_calls env,
                refresh_events env) ∧
      (∀ c ∈ refresh_calls env, c.isCacheBypassingRead = true)) := by
  constructor
  · intro h
    simp [handleMessage, h]
  · intro g hg
    exact ⟨by simp [handleMessage, hg], refresh_calls_all_bypassing env⟩

/-- C5 amended witness: at `envAB`, `"missing"` resolves to no group and
aborts the worker, while `"A"` resolves to group 10 and produces the
membership add plus the cache-bypassing refresh. -/
theorem changeGroup_behaviour_witness :
    (envAB.groups.find? (fun g => g.name == "missing") = none ∧
      handleMessage envAB ("org") (BackendMessage.ChangeGroup 1 "missing") = none) ∧
    (envAB.groups.find? (fun g2 => g2.name == "A")
        = some { id := 10, name := "A", visibility := RunnerGroupVisibility.Selected } ∧
      (handleMessage envAB ("org") (BackendMessage.ChangeGroup 1 "A")
          = some (NetCall.get_all_groups false
                    :: NetCall.add_runner_to_group 1 10
                    :: refresh_calls envAB,
                  refresh_events envAB) ∧
        (∀ c ∈ refresh_calls envAB, c.isCacheBypassingRead = true))) :=
  ⟨⟨by decide, (changeGroup_behaviour envAB ("org") 1 "missing").1 (by decide)⟩,
   ⟨by decide, (changeGroup_behaviour envAB ("org") 1 "A").2
      { id := 10, name := "A", visibility := RunnerGroupVisibility.Selected } (by decide)⟩⟩

/-! ## C6 — loading popup and command rejection -/

/-- C6 is violated by the code: with the loading popup still open after an
AddLabel dispatch, pressing Enter in `SelectOp` matches `Some(_)` on the
popup (the arm never inspects `is_loading`) and calls `add_label` again,
dispatching a second `AddLabel` command for the same runner — with the
now-empty input buffer as the label — while the first refresh is
outstanding.  Committing input during the loading window is not rejected. -/
theorem loading_popup_does_not_reject_commit :
    loadingTab.popup_content = some PopupInfo.loading ∧
    PopupInfo.loading.is_loading = true ∧
    RunnersTab.handle_input loadingTab KeyCode.Enter
      = some (loadingTab, [BackendMessage.AddLabel 7 ""], false) :=
  ⟨rfl, rfl, rfl⟩

/-! ## C7 — Escape handling -/

/-- C7 counterexample: in the `SelectOp` sub-stage with no popup, Escape
returns the exit signal and leaves the stage unchanged — the application
exits instead of stepping back exactly one stage. -/
theorem esc_in_substage_exits :
    selOpTab.popup_content = none ∧
    selOpTab.stage = RunnersStage.SelectOp ∧
    RunnersTab.handle_input selOpTab KeyCode.Esc = some (selOpTab, [], true) :=
  ⟨rfl, rfl, rfl⟩

/-- C7 amended: with no popup open, Escape requests application exit from
every stage (there is no one-stage step-back on Escape; Left serves that
role).  With a popup open: the old top-level handler closes the popup and
changes nothing else; the runners tab ignores Escape entirely (the popup
stays open); the groups tab closes the popup and steps back one stage in
its two text-input stages, and ignores Escape in its other stages. -/
theorem escape_behaviour :
    (∀ s : AppEscState, s.show_popup = true →
      s.handle_key_esc = { s with show_popup := false }) ∧
    (∀ s : AppEscState, s.show_popup = false →
      s.handle_key_esc = { s with should_exit := true }) ∧
    (∀ t : RunnersTab, t.popup_content = none →
      t.handle_input KeyCode.Esc = some (t, [], true)) ∧
    (∀ t : RunnersGroupsTab, t.popup_content = none →
      t.handle_input KeyCode.Esc = some (t, [], true)) ∧
    (∀ (t : RunnersTab) (p : PopupInfo), t.popup_content = some p →
      t.handle_input KeyCode.Esc = some (t, [], false)) ∧
    (∀ (t : RunnersGroupsTab) (p : PopupInfo), t.popup_content = some p →
      (t.stage = GroupsStage.AddRepo ∨ t.stage = GroupsStage.CreateGroup) →
      t.handle_input KeyCode.Esc
        = some ({ t with popup_content := none, stage := GroupsStage.SelectOperation },
                [], false)) ∧
    (∀ (t : RunnersGroupsTab) (p : PopupInfo), t.popup_content = some p →
      (t.stage = GroupsStage.SelectGroup ∨ t.stage = GroupsStage.SelectOperation ∨
        t.stage = GroupsStage.ListRepos) →
      t.handle_input KeyCode.Esc = some (t, [], false)) := by
  refine ⟨?_, ?_, ?_, ?_, ?_, ?_, ?_⟩
  · intro s hs
    simp [AppEscState.handle_key_esc, hs]
  · intro s hs
    simp [AppEscState.handle_key_esc, hs]
  · intro t ht
    obtain ⟨run, ops, dyn, stage, ib, pc⟩ := t
    subst ht
    rfl
  · intro t ht
    obtain ⟨grs, ops, dyn, stage, ib, pc⟩ := t
    subst ht
    rfl
  · intro t p hp
    obtain ⟨run, ops, dyn, stage, ib, pc⟩ := t
    cases hp
    cases stage <;> rfl
  · intro t p hp hst
    obtain ⟨grs, ops, dyn, stage, ib, pc⟩ := t
    cases hp
    rcases hst with h | h <;> (cases h; rfl)
  · intro t p hp hst
    obtain ⟨grs, ops, dyn, stage, ib, pc⟩ := t
    cases hp
    rcases hst with h | h | h <;> (cases h; rfl)

/-- C7 amended witness: the concrete behaviours at a popup-open top-level
state, at the popup-free `SelectOp` runners tab, and at a groups tab
`AddRepo` input stage. -/
theorem escape_behaviour_witness :
    (AppEscState.handle_key_esc
        { selected_tab := AppTab.RunnerOpSelection, show_popup := true,
          should_exit := false }
      = { selected_tab := AppTab.RunnerOpSelection, show_popup := false,
          should_exit := false }) ∧
    RunnersTab.handle_input (RunnersTab.new [r7]) KeyCode.Esc
      = some (RunnersTab.new [r7], [], true) ∧
    RunnersTab.handle_input loadingTab KeyCode.Esc = some (loadingTab, [], false) := by
  refine ⟨?_, ?_, ?_⟩
  · exact escape_behaviour.1
      { selected_tab := AppTab.RunnerOpSelection, show_popup := true,
        should_exit := false } rfl
  · exact escape_behaviour.2.2.1 (RunnersTab.new [r7]) rfl
  · exact escape_behaviour.2.2.2.2.1 loadingTab PopupInfo.loading rfl

/-! ## C8 — filter properties -/

/-- C8: the filtered view equals the items whose display text contains the
filter string as a substring; refiltering with the same string yields the
same state (idempotence); and extending the filter string to any string
containing it never increases the size of the filtered view. -/
theorem filter_view_properties {α : Type} (disp : α → List Char)
    (fl : FilterableList α) (items : List α) (s s' : List Char)
    (hext : s <:+: s') :
    (fl.filter_items disp).list.items
      = fl.items.filter (fun it => decide (fl.input_buffer <:+: disp it)) ∧
    (fl.filter_items disp).filter_items disp = fl.filter_items disp ∧
    (items.filter (fun it => decide (s' <:+: disp it))).length
      ≤ (items.filter (fun it => decide (s <:+: disp it))).length := by
  refine ⟨rfl, rfl, ?_⟩
  refine (List.monotone_filter_right items ?_).length_le
  intro a ha
  simp only [decide_eq_true_eq] at ha ⊢
  exact hext.trans ha

/-- C8 witness: for items `["a", "b"]`, the empty filter keeps both, the
recomputation is idempotent, and extending `"a"` to `"ab"` does not grow
the view. -/
theorem filter_view_properties_witness :
    (['a'] : List Char) <:+: ['a', 'b'] ∧
    ((flAB.filter_items id).list.items
        = flAB.items.filter (fun it => decide (flAB.input_buffer <:+: id it)) ∧
      (flAB.filter_items id).filter_items id = flAB.filter_items id ∧
      (([['a'], ['b']] : List (List Char)).filter
          (fun it => decide ((['a', 'b'] : List Char) <:+: id it))).length
        ≤ (([['a'], ['b']] : List (List Char)).filter
          (fun it => decide ((['a'] : List Char) <:+: id it))).length) :=
  ⟨by decide, filter_view_properties id flAB [['a'], ['b']] ['a'] ['a', 'b'] (by decide)⟩

/-! ## C9 — list container invariant -/

/-- C9 counterexample: typing `'z'` (a filter recomputation) empties the
filtered view but leaves the cursor at index 0, which is no longer a valid
index into the filtered view — reading the selected item through the Rust
`items[idx]` would go out of bounds. -/
theorem cursor_invalid_after_filter :
    ¬ FilterableList.specInv (FilterableList.update_filter id 'z' flC9) := by
  intro h
  have h0 := h.2 0 rfl
  revert h0
  decide

/-- C9 amended: after every modelled list operation the filtered view is
still an order-preserving subsequence of the authoritative items (and a
fresh list starts that way, and `SelectableList::set_items` clears the
cursor) — but the cursor is not re-clamped by filter recomputation, so its
validity as an index into the filtered view is not an invariant. -/
theorem filtered_view_sublist_invariant {α : Type} (disp : α → List Char)
    (fl : FilterableList α) (sl : SelectableList α) (items : List α) (op : FLOp α)
    (hinv : List.Sublist fl.list.items fl.items) :
    List.Sublist (fl.applyOp disp op).list.items (fl.applyOp disp op).items ∧
    List.Sublist (FilterableList.new items).list.items
      (FilterableList.new items).items ∧
    (sl.set_items items).state.selected = none := by
  refine ⟨?_, List.Sublist.refl _, rfl⟩
  cases op with
  | set_items_refilter its => exact List.filter_sublist _
  | filter_items => exact List.filter_sublist _
  | update_filter c => exact List.filter_sublist _
  | remove_last_input => exact List.filter_sublist _
  | select_first => exact hinv
  | select_last => exact hinv
  | select_next => exact hinv
  | select_previous => exact hinv
  | select_none => exact hinv

/-- C9 amended witness: the subsequence invariant at the concrete list
`flC9` across the same filter recomputation that invalidates the cursor. -/
theorem filtered_view_sublist_invariant_witness :
    List.Sublist flC9.list.items flC9.items ∧
    (List.Sublist ((flC9.applyOp id (FLOp.update_filter 'z')).list.items)
        ((flC9.applyOp id (FLOp.update_filter 'z')).items) ∧
      List.Sublist
        ((FilterableList.new [['a']] : FilterableList (List Char))).list.items
        ((FilterableList.new [['a']] : FilterableList (List Char))).items ∧
      (((SelectableList.new [['a']] : SelectableList (List Char))).set_items
          [['a']]).state.selected = none) :=
  ⟨List.Sublist.refl _,
   filtered_view_sublist_invariant id flC9 (SelectableList.new [['a']]) [['a']]
     (FLOp.update_filter 'z') (List.Sublist.refl _)⟩

end RunnersRs
